import Mathlib

/-!
Shallow embedding of the budget-gated publication pipeline of
`backend/app/services/publisher.py`, `backend/app/services/budgets.py`,
`backend/app/services/alerts.py` and the relevant parts of
`backend/app/storage_db.py`.

Conventions of the embedding:
* instants (`datetime`) are `Nat` seconds since the epoch; the daily window
  start (`now.replace(hour=0, ...)`) is `t / 86400 * 86400`;
* SQLAlchemy rows live in plain lists inside a `Store`; `session.flush()`
  is modelled by writing the updated row back into the list;
* Python exceptions are an `Except` result threaded together with the
  state (the session survives the exception, as it does in the code);
* Python truthiness on `Optional[str]` / `Optional[int]` is modelled
  explicitly (`none` and `some ""` / `some 0` are falsy);
* the network side of `_publish_to_platform` is a parameter
  `adapter : Publication → Except String AdapterResult`; every invocation
  of it, and every budget call, is recorded in an event trace so that
  "performs no platform-adapter call" is expressible.
-/

namespace ContentZavod

/-- Seconds in a day, for the daily budget window. -/
def secondsPerDay : Nat := 86400

/-- `now.replace(hour=0, minute=0, second=0, microsecond=0)` for the
daily window (`BudgetService._get_window_start`). -/
def dailyWindowStart (t : Nat) : Nat := t / secondsPerDay * secondsPerDay

/-- Python truthiness of an `Optional[str]`: `None` and `""` are falsy. -/
def optStrTruthy : Option String → Bool
  | none => false
  | some s => s ≠ ""

/-- Python truthiness of an `Optional[int]`: `None` and `0` are falsy. -/
def optNatTruthy : Option Nat → Bool
  | none => false
  | some n => n ≠ 0

/-- `models.Publication` (the columns the pipeline reads or writes). -/
structure Publication where
  id : Nat
  project_id : Nat
  content_item_id : Nat
  platform : String
  scheduled_at : Nat
  status : String
  platform_post_id : Option String
  platform_post_url : Option String
  published_at : Option Nat
  idempotency_key : Option String
  attempt_count : Nat
  last_error : Option String
  deriving Repr, DecidableEq

/-- `models.QcReport` (the columns `_qc_passed` reads). -/
structure QcReport where
  project_id : Nat
  content_item_id : Nat
  passed : Bool
  created_at : Nat
  deriving Repr, DecidableEq

/-- `models.Budget` (the columns the budget guard reads). -/
structure Budget where
  id : Nat
  project_id : Nat
  token_limit : Option Nat
  video_seconds_limit : Option Nat
  publication_limit : Option Nat
  created_at : Nat
  deriving Repr, DecidableEq

/-- `models.BudgetUsage`: one append-only ledger row. -/
structure BudgetUsage where
  budget_id : Nat
  project_id : Nat
  usage_date : Nat
  token_used : Nat
  video_seconds_used : Nat
  publications_used : Nat
  deriving Repr, DecidableEq

/-- `models.Alert` (the columns the claims mention; `metadata` is kept as
string key/value pairs). -/
structure Alert where
  project_id : Nat
  alert_type : String
  severity : String
  message : String
  metadata : List (String × String)
  deriving Repr, DecidableEq

/-- `models.ContentItem` (only existence and ownership matter to the
pipeline's storage checks). -/
structure ContentItem where
  id : Nat
  project_id : Nat
  deriving Repr, DecidableEq

/-- `storage_db.BudgetUsageTotals`. -/
structure BudgetUsageTotals where
  token_used : Nat
  video_seconds_used : Nat
  publications_used : Nat
  deriving Repr, DecidableEq

/-- The database session: every table the pipeline touches, plus the
autoincrement counter for publications. -/
structure Store where
  projects : List Nat
  content_items : List ContentItem
  publications : List Publication
  qc_reports : List QcReport
  budgets : List Budget
  budget_usages : List BudgetUsage
  alerts : List Alert
  next_publication_id : Nat
  deriving Repr, DecidableEq

/-- Python exceptions raised by the pipeline. -/
inductive PubError where
  | keyError (msg : String)
  | budgetLimitExceeded (reason : String)
  | valueError (msg : String)
  deriving Repr, DecidableEq

/-- Observable events of one run: platform-adapter invocations, budget
calls, row creations and task enqueues. -/
inductive Event where
  | adapterCall (publication_id : Nat)
  | ensureBudgetCall (project_id : Nat)
  | recordUsageCall (project_id : Nat) (publications_used : Nat)
  | publicationCreated (publication_id : Nat)
  | taskEnqueued (task_name : String) (idempotency_key : Option String) (run_at : Nat)
  deriving Repr, DecidableEq

/-- `scalar(select(...).order_by(created_at.desc()))`: the element with the
largest `created_at` (first listed wins a tie). -/
def latestBy {α : Type} (f : α → Nat) : List α → Option α
  | [] => none
  | x :: xs =>
      match latestBy f xs with
      | none => some x
      | some y => if f y > f x then some y else some x

/-! ## `InMemoryTaskQueue` (publisher.py lines 35–82) -/

/-- The task payloads the pipeline enqueues (`publish_content` dicts). -/
structure Payload where
  publication_id : Option Nat
  project_id : Option Nat
  deriving Repr, DecidableEq

/-- `publisher.TaskEntry`. -/
structure TaskEntry where
  task_id : String
  task_name : String
  payload : Payload
  run_at : Nat
  idempotency_key : Option String
  attempts : Nat
  deriving Repr, DecidableEq

/-- `publisher.InMemoryTaskQueue` state. -/
structure InMemoryTaskQueue where
  tasks : List TaskEntry
  idempotency_index : List String
  counter : Nat
  deriving Repr, DecidableEq

namespace InMemoryTaskQueue

/-- `InMemoryTaskQueue.enqueue`.  The dedup check is
`if idempotency_key and idempotency_key in self._idempotency_index`, so an
empty string key is falsy and skips both the dedup check and the index. -/
def enqueue (q : InMemoryTaskQueue) (task_name : String) (payload : Payload)
    (run_at : Option Nat) (idempotency_key : Option String) (now : Nat) :
    String × InMemoryTaskQueue :=
  if optStrTruthy idempotency_key ∧ q.idempotency_index.contains (idempotency_key.getD "") then
    (idempotency_key.getD "", q)
  else
    let counter := q.counter + 1
    let task_id :=
      if optStrTruthy idempotency_key then idempotency_key.getD ""
      else "task-" ++ toString counter
    let entry : TaskEntry :=
      { task_id := task_id
        task_name := task_name
        payload := payload
        run_at := run_at.getD now
        idempotency_key := idempotency_key
        attempts := 0 }
    let index :=
      if optStrTruthy idempotency_key then
        q.idempotency_index ++ [idempotency_key.getD ""]
      else q.idempotency_index
    (task_id, { tasks := q.tasks ++ [entry], idempotency_index := index, counter := counter })

/-- `InMemoryTaskQueue.pop_due`: removes and returns the tasks with
`run_at <= now`; the idempotency index is untouched. -/
def popDue (q : InMemoryTaskQueue) (now : Nat) :
    List TaskEntry × InMemoryTaskQueue :=
  (q.tasks.filter (fun t => t.run_at ≤ now),
   { q with tasks := q.tasks.filter (fun t => ¬ t.run_at ≤ now) })

/-- `InMemoryTaskQueue.mark_done`: discards the id from the index. -/
def markDone (q : InMemoryTaskQueue) (task_id : String) : InMemoryTaskQueue :=
  { q with idempotency_index := q.idempotency_index.filter (fun k => k ≠ task_id) }

end InMemoryTaskQueue

/-! ## `DatabaseStore` (storage_db.py, the methods the pipeline calls) -/

namespace Store

/-- `DatabaseStore._require_project`: raises `KeyError("project_not_found")`
when the project id is unknown. -/
def requireProject (st : Store) (project_id : Nat) : Except PubError Unit :=
  if st.projects.contains project_id then .ok () else .error (.keyError "project_not_found")

/-- `DatabaseStore.get_latest_budget`: latest (by `created_at`) budget row
of the project, `none` when there is none. -/
def getLatestBudget (st : Store) (project_id : Nat) :
    Except PubError (Option Budget) := do
  requireProject st project_id
  pure (latestBy (fun b => b.created_at)
    (st.budgets.filter (fun b => b.project_id = project_id)))

/-- `DatabaseStore.sum_budget_usage`: componentwise sums of the ledger rows
of the project whose `usage_date` lies in `[start, end]`. -/
def sumBudgetUsage (st : Store) (project_id : Nat) (start stop : Nat) :
    Except PubError BudgetUsageTotals := do
  requireProject st project_id
  let rows := st.budget_usages.filter
    (fun u => u.project_id = project_id ∧ start ≤ u.usage_date ∧ u.usage_date ≤ stop)
  pure { token_used := (rows.map (fun u => u.token_used)).sum
         video_seconds_used := (rows.map (fun u => u.video_seconds_used)).sum
         publications_used := (rows.map (fun u => u.publications_used)).sum }

/-- `DatabaseStore.create_budget_usage`: appends one ledger row after
checking the project and that `budget_id` is a budget of this project. -/
def createBudgetUsage (st : Store) (project_id : Nat) (usage : BudgetUsage) :
    Store × Except PubError BudgetUsage :=
  match requireProject st project_id with
  | .error e => (st, .error e)
  | .ok _ =>
      match st.budgets.find? (fun b => b.id = usage.budget_id) with
      | none => (st, .error (.keyError "budget_not_found"))
      | some b =>
          if b.project_id = project_id then
            ({ st with budget_usages := st.budget_usages ++ [usage] }, .ok usage)
          else (st, .error (.keyError "budget_not_found"))

/-- `DatabaseStore.create_alert` via `AlertService.create_alert`: appends
one alert row. -/
def createAlert (st : Store) (project_id : Nat) (alert_type severity message : String)
    (metadata : List (String × String)) : Store × Except PubError Alert :=
  match requireProject st project_id with
  | .error e => (st, .error e)
  | .ok _ =>
      let alert : Alert :=
        { project_id := project_id, alert_type := alert_type, severity := severity
          message := message, metadata := metadata }
      ({ st with alerts := st.alerts ++ [alert] }, .ok alert)

/-- `DatabaseStore.get_publication_by_idempotency_key`: first publication
row of the project carrying exactly this key. -/
def getPublicationByIdempotencyKey (st : Store) (project_id : Nat) (key : String) :
    Except PubError (Option Publication) := do
  requireProject st project_id
  pure (st.publications.find?
    (fun p => p.project_id = project_id ∧ p.idempotency_key = some key))

/-- `DatabaseStore.create_publication`: checks the project and the content
item, then appends a fresh row with the next id. -/
def createPublication (st : Store) (project_id content_item_id : Nat)
    (platform : String) (scheduled_at : Nat) (status : String)
    (idempotency_key : String) : Store × Except PubError Publication :=
  match requireProject st project_id with
  | .error e => (st, .error e)
  | .ok _ =>
      match st.content_items.find? (fun c => c.id = content_item_id) with
      | none => (st, .error (.keyError "content_item_not_found"))
      | some item =>
          if item.project_id = project_id then
            let pub : Publication :=
              { id := st.next_publication_id
                project_id := project_id
                content_item_id := content_item_id
                platform := platform
                scheduled_at := scheduled_at
                status := status
                platform_post_id := none
                platform_post_url := none
                published_at := none
                idempotency_key := some idempotency_key
                attempt_count := 0
                last_error := none }
            ({ st with publications := st.publications ++ [pub]
                       next_publication_id := st.next_publication_id + 1 },
             .ok pub)
          else (st, .error (.keyError "content_item_not_found"))

/-- `session.get(models.Publication, id)`. -/
def getPublicationRow (st : Store) (publication_id : Nat) : Option Publication :=
  st.publications.find? (fun p => p.id = publication_id)

/-- `session.add` + `flush` on an existing publication row: writes the
updated row back in place (matched by id). -/
def putPublicationRow (st : Store) (pub : Publication) : Store :=
  { st with publications :=
      st.publications.map (fun p => if p.id = pub.id then pub else p) }

/-- `DatabaseStore.list_due_publications`: rows of the project with
`status = "scheduled"` and `scheduled_at <= scheduled_before`. -/
def listDuePublications (st : Store) (project_id : Nat) (scheduled_before : Nat) :
    Except PubError (List Publication) := do
  requireProject st project_id
  pure (st.publications.filter
    (fun p => p.project_id = project_id ∧ p.status = "scheduled" ∧
      p.scheduled_at ≤ scheduled_before))

end Store

/-! ## `BudgetService` (budgets.py) -/

namespace BudgetService

/-- `BudgetService.get_active_budget`: `KeyError("budget_not_found")` when
the project has no budget row. -/
def getActiveBudget (st : Store) (project_id : Nat) : Except PubError Budget := do
  match ← st.getLatestBudget project_id with
  | none => .error (.keyError "budget_not_found")
  | some b => pure b

/-- The `reasons` list built in `BudgetService.ensure_budget` lines 87–93:
a dimension participates only when its limit is truthy (non-`None`,
non-zero) and the would-be total strictly exceeds it. -/
def budgetReasons (b : Budget) (total_tokens total_video total_publications : Nat) :
    List String :=
  (if optNatTruthy b.token_limit ∧ total_tokens > b.token_limit.getD 0 then
    ["token_limit_exceeded"] else []) ++
  (if optNatTruthy b.video_seconds_limit ∧ total_video > b.video_seconds_limit.getD 0 then
    ["video_seconds_limit_exceeded"] else []) ++
  (if optNatTruthy b.publication_limit ∧ total_publications > b.publication_limit.getD 0 then
    ["publication_limit_exceeded"] else [])

/-- `BudgetService.ensure_budget` (the spec's `ensure_admission`): sums the
daily window `[midnight(usage_date), usage_date]`, adds the hypothetical
consumption, and on any offence emits a `budget_exceeded` alert and raises
`BudgetLimitExceeded` with the comma-joined reasons. -/
def ensureBudget (st : Store) (project_id : Nat)
    (token_used video_seconds_used publications_used : Nat)
    (usage_date : Option Nat) (now : Nat) : Store × Except PubError Unit :=
  let usage_date := usage_date.getD now
  match getActiveBudget st project_id with
  | .error e => (st, .error e)
  | .ok budget =>
      match st.sumBudgetUsage project_id (dailyWindowStart usage_date) usage_date with
      | .error e => (st, .error e)
      | .ok totals =>
          let total_tokens := totals.token_used + token_used
          let total_video := totals.video_seconds_used + video_seconds_used
          let total_publications := totals.publications_used + publications_used
          let reasons := budgetReasons budget total_tokens total_video total_publications
          if reasons ≠ [] then
            let message := String.intercalate "," reasons
            let (st, _) := st.createAlert project_id "budget_exceeded" "critical" message
              [("token_used", toString total_tokens),
               ("video_seconds_used", toString total_video),
               ("publications_used", toString total_publications),
               ("window", "daily")]
            (st, .error (.budgetLimitExceeded message))
          else (st, .ok ())

/-- `BudgetService.record_usage`: resolves the active budget, runs the
admission check, then appends exactly one ledger row. -/
def recordUsage (st : Store) (project_id : Nat)
    (token_used video_seconds_used publications_used : Nat)
    (usage_date : Option Nat) (now : Nat) : Store × Except PubError BudgetUsage :=
  match getActiveBudget st project_id with
  | .error e => (st, .error e)
  | .ok budget =>
      let usage_date := usage_date.getD now
      match ensureBudget st project_id token_used video_seconds_used
        publications_used (some usage_date) now with
      | (st, .error e) => (st, .error e)
      | (st, .ok _) =>
          st.createBudgetUsage project_id
            { budget_id := budget.id
              project_id := project_id
              usage_date := usage_date
              token_used := token_used
              video_seconds_used := video_seconds_used
              publications_used := publications_used }

end BudgetService

/-! ## `PublisherService` (publisher.py) -/

/-- Constructor arguments of `PublisherService` that the claims exercise. -/
structure PublisherConfig where
  max_attempts : Nat
  retry_delay_seconds : Nat
  deriving Repr, DecidableEq

/-- The defaults `max_attempts=3, retry_delay_seconds=60`. -/
def defaultConfig : PublisherConfig :=
  { max_attempts := 3, retry_delay_seconds := 60 }

/-- The dictionary `_publish_to_platform` returns on success. -/
structure AdapterResult where
  platform_post_id : String
  platform_post_url : Option String
  deriving Repr, DecidableEq

/-- The platform side of `_publish_to_platform` (token lookup, metadata
validation and the HTTP call): an abstract function of the publication row
it is invoked on; a raised exception is the `Except.error` message that
`publish_publication` catches as `str(exc)`. -/
def Adapter : Type := Publication → Except String AdapterResult

/-- `PublicationResult` (publisher.py lines 29–32). -/
structure PublicationResult where
  publication : Publication
  task_id : Option String
  deriving Repr, DecidableEq

/-- Combined mutable state of one `PublisherService`: the database session,
the optional `InMemoryTaskQueue`, and the observable event trace. -/
structure SysState where
  store : Store
  queue : Option InMemoryTaskQueue
  trace : List Event
  deriving Repr, DecidableEq

namespace PublisherService

/-- `PublisherService._make_idempotency_key`. -/
def makeIdempotencyKey (project_id content_item_id : Nat) (platform : String)
    (scheduled_at : Nat) : String :=
  toString project_id ++ ":" ++ toString content_item_id ++ ":" ++ platform ++ ":" ++
    toString scheduled_at

/-- `PublisherService._qc_passed`: the latest QC report of the content item
must exist and have `passed` set. -/
def qcPassed (st : Store) (project_id content_item_id : Nat) : Bool :=
  match latestBy (fun r => r.created_at)
    (st.qc_reports.filter
      (fun r => r.project_id = project_id ∧ r.content_item_id = content_item_id)) with
  | some report => report.passed
  | none => false

/-- `PublisherService.mark_published`: re-fetches the row, stamps the
platform ids, `published_at` (defaulting to now), flips the status to
`published` and clears `last_error`. -/
def markPublished (st : Store) (project_id publication_id : Nat)
    (platform_post_id : String) (platform_post_url : Option String)
    (published_at : Option Nat) (now : Nat) : Store × Except PubError Publication :=
  let published_at := published_at.getD now
  match st.getPublicationRow publication_id with
  | none => (st, .error (.keyError "publication_not_found"))
  | some pub =>
      if pub.project_id = project_id then
        let pub :=
          { pub with platform_post_id := some platform_post_id
                     platform_post_url := platform_post_url
                     published_at := some published_at
                     status := "published"
                     last_error := none }
        (st.putPublicationRow pub, .ok pub)
      else (st, .error (.keyError "publication_not_found"))

/-- `PublisherService._handle_publish_error`: stores the error, then either
fails terminally with a `publication_failed` alert (ceiling reached) or
re-arms the row as `scheduled` and enqueues a retry task with delay
`retry_delay_seconds` under key `publication-retry-<id>-<attempt_count>`. -/
def handlePublishError (cfg : PublisherConfig) (sys : SysState)
    (pub : Publication) (error_message : String) (now : Nat) :
    SysState × Except PubError Publication :=
  let pub := { pub with last_error := some error_message }
  if pub.attempt_count ≥ cfg.max_attempts then
    let pub := { pub with status := "failed" }
    match sys.store.createAlert pub.project_id "publication_failed" "high" error_message
      [("publication_id", toString pub.id), ("platform", pub.platform),
       ("attempts", toString pub.attempt_count)] with
    | (st, .error e) => ({ sys with store := st }, .error e)
    | (st, .ok _) =>
        ({ sys with store := st.putPublicationRow pub }, .ok pub)
  else
    let pub := { pub with status := "scheduled" }
    match sys.queue with
    | none =>
        ({ sys with store := sys.store.putPublicationRow pub }, .ok pub)
    | some q =>
        let run_at := now + cfg.retry_delay_seconds
        let key := "publication-retry-" ++ toString pub.id ++ "-" ++ toString pub.attempt_count
        let (_, q) := q.enqueue "publish_content"
          { publication_id := some pub.id, project_id := some pub.project_id }
          (some run_at) (some key) now
        ({ store := sys.store.putPublicationRow pub
           queue := some q
           trace := sys.trace ++ [.taskEnqueued "publish_content" (some key) run_at] },
         .ok pub)

/-- `PublisherService.publish_publication`: QC gate, terminal-state guards,
`publishing` + attempt bump, adapter call, then success or error path. -/
def publishPublication (cfg : PublisherConfig) (adapter : Adapter) (now : Nat)
    (sys : SysState) (project_id publication_id : Nat) :
    SysState × Except PubError Publication :=
  match sys.store.getPublicationRow publication_id with
  | none => (sys, .error (.keyError "publication_not_found"))
  | some pub =>
      if pub.project_id = project_id then
        if ¬ qcPassed sys.store project_id pub.content_item_id then
          let pub := { pub with status := "failed", last_error := some "qc_failed" }
          ({ sys with store := sys.store.putPublicationRow pub }, .ok pub)
        else if pub.status = "published" ∧ optStrTruthy pub.platform_post_id then
          (sys, .ok pub)
        else if pub.status = "publishing" then
          (sys, .ok pub)
        else
          let pub := { pub with status := "publishing", attempt_count := pub.attempt_count + 1 }
          let sys := { sys with store := sys.store.putPublicationRow pub
                                trace := sys.trace ++ [.adapterCall pub.id] }
          match adapter pub with
          | .error exc => handlePublishError cfg sys pub exc now
          | .ok result =>
              match markPublished sys.store project_id publication_id
                result.platform_post_id result.platform_post_url none now with
              | (st, .error e) => ({ sys with store := st }, .error e)
              | (st, .ok pub) => ({ sys with store := st }, .ok pub)
      else (sys, .error (.keyError "publication_not_found"))

/-- `PublisherService.schedule`: resolve the idempotency key, return the
existing row if the key is taken, otherwise record budget usage, create the
row and enqueue the dispatch task. -/
def schedule (now : Nat) (sys : SysState)
    (project_id content_item_id : Nat) (platform : String)
    (scheduled_at : Option Nat) (idempotency_key : Option String) :
    SysState × Except PubError PublicationResult :=
  let scheduled_at := scheduled_at.getD now
  let key :=
    if optStrTruthy idempotency_key then idempotency_key.getD ""
    else makeIdempotencyKey project_id content_item_id platform scheduled_at
  match sys.store.getPublicationByIdempotencyKey project_id key with
  | .error e => (sys, .error e)
  | .ok (some existing) => (sys, .ok { publication := existing, task_id := none })
  | .ok none =>
      let sys := { sys with trace := sys.trace ++ [Event.recordUsageCall project_id 1] }
      match BudgetService.recordUsage sys.store project_id 0 0 1 none now with
      | (st, .error e) => ({ sys with store := st }, .error e)
      | (st, .ok _) =>
          match st.createPublication project_id content_item_id platform
            scheduled_at "scheduled" key with
          | (st, .error e) => ({ sys with store := st }, .error e)
          | (st, .ok pub) =>
              let sys := { sys with store := st
                                    trace := sys.trace ++ [Event.publicationCreated pub.id] }
              match sys.queue with
              | none => (sys, .ok { publication := pub, task_id := none })
              | some q =>
                  let tkey := "publication-" ++ toString pub.id
                  let (task_id, q) := q.enqueue "publish_content"
                    { publication_id := some pub.id, project_id := some project_id }
                    (some scheduled_at) (some tkey) now
                  ({ sys with queue := some q
                              trace := sys.trace ++
                                [Event.taskEnqueued "publish_content" (some tkey) scheduled_at] },
                   .ok { publication := pub, task_id := some task_id })

end PublisherService

/-- An adapter that fails on every call with the given message. -/
def failingAdapter (msg : String) : Adapter := fun _ => .error msg

/-- An adapter that succeeds on every call with a fixed platform post id. -/
def okAdapter : Adapter := fun _ => .ok { platform_post_id := "m1", platform_post_url := none }

/-- `true` exactly on the budget-guard events of a trace. -/
def Event.isBudgetEvent : Event → Bool
  | .ensureBudgetCall _ => true
  | .recordUsageCall _ _ => true
  | _ => false

/-! ## Concrete fixtures used by witnesses and counterexamples -/

namespace Fixtures

/-- A scheduled publication of project 1 / content item 7. -/
def basePub : Publication :=
  { id := 3, project_id := 1, content_item_id := 7, platform := "telegram",
    scheduled_at := 100, status := "scheduled", platform_post_id := none,
    platform_post_url := none, published_at := none,
    idempotency_key := some "k1", attempt_count := 0, last_error := none }

/-- Store with project 1, content item 7, a passing QC report, a daily
publication limit of 2 and an empty ledger. -/
def baseStore : Store :=
  { projects := [1]
    content_items := [{ id := 7, project_id := 1 }]
    publications := [basePub]
    qc_reports := [{ project_id := 1, content_item_id := 7, passed := true, created_at := 10 }]
    budgets := [{ id := 5, project_id := 1, token_limit := none,
                  video_seconds_limit := none, publication_limit := some 2, created_at := 0 }]
    budget_usages := []
    alerts := []
    next_publication_id := 100 }

/-- `baseStore` with an empty in-memory queue and an empty trace. -/
def baseSys : SysState :=
  { store := baseStore, queue := some ⟨[], [], 0⟩, trace := [] }

/-- Two ledger rows of today (window of instant 200) that exhaust the
publication limit of `baseStore`'s budget. -/
def exhaustedStore : Store :=
  { baseStore with budget_usages :=
      [{ budget_id := 5, project_id := 1, usage_date := 150, token_used := 0,
         video_seconds_used := 0, publications_used := 1 },
       { budget_id := 5, project_id := 1, usage_date := 160, token_used := 0,
         video_seconds_used := 0, publications_used := 1 }] }

/-- `exhaustedStore` with an empty queue and trace. -/
def exhaustedSys : SysState :=
  { store := exhaustedStore, queue := some ⟨[], [], 0⟩, trace := [] }

/-- A published row (terminal per the spec) for content item 7. -/
def publishedPub : Publication :=
  { basePub with status := "published", platform_post_id := some "p1" }

/-- Store holding `publishedPub` whose latest QC report FAILS. -/
def qcFailedPublishedStore : Store :=
  { baseStore with publications := [publishedPub]
                   qc_reports := [{ project_id := 1, content_item_id := 7,
                                    passed := false, created_at := 10 }] }

/-- `qcFailedPublishedStore` with no queue and an empty trace. -/
def qcFailedPublishedSys : SysState :=
  { store := qcFailedPublishedStore, queue := none, trace := [] }

/-- The row `basePub` after a successful delivery at instant 200 with
platform post id `m1`. -/
def deliveredPub : Publication :=
  { basePub with
      status := "published"
      platform_post_id := some "m1"
      published_at := some 200
      attempt_count := 1 }

/-- Store holding `publishedPub` with its QC report passing. -/
def publishedOkStore : Store :=
  { baseStore with publications := [publishedPub] }

/-- `publishedOkStore` with no queue and an empty trace. -/
def publishedOkSys : SysState :=
  { store := publishedOkStore, queue := none, trace := [] }

/-- `basePub` already carrying one failed attempt, back in `scheduled`. -/
def retryPub : Publication :=
  { basePub with attempt_count := 1 }

/-- `baseStore` holding `retryPub`. -/
def retryStore : Store :=
  { baseStore with publications := [retryPub] }

/-- `retryStore` with an empty queue and trace. -/
def retrySys : SysState :=
  { store := retryStore, queue := some ⟨[], [], 0⟩, trace := [] }

/-- The publication row `schedule` creates on `baseStore` for content item
7 / telegram / instant 500 with the derived idempotency key. -/
def scheduledPub : Publication :=
  { id := 100, project_id := 1, content_item_id := 7, platform := "telegram",
    scheduled_at := 500, status := "scheduled", platform_post_id := none,
    platform_post_url := none, published_at := none,
    idempotency_key := some "1:7:telegram:500", attempt_count := 0, last_error := none }

/-- A pending dispatch task under idempotency key `a`. -/
def taskA : TaskEntry :=
  { task_id := "a", task_name := "publish_content",
    payload := { publication_id := some 3, project_id := some 1 },
    run_at := 5, idempotency_key := some "a", attempts := 0 }

/-- A queue holding `taskA`, its key in the idempotency index. -/
def queueA : InMemoryTaskQueue :=
  { tasks := [taskA], idempotency_index := ["a"], counter := 1 }

end Fixtures

/-! ## Claims -/

open PublisherService BudgetService

/-- A truthy `Optional[int]` limit combined with a strict comparison is the
same as a positive limit strictly exceeded. -/
lemma truthy_gt_iff (o : Option Nat) (T : Nat) :
    ((optNatTruthy o = true) ∧ T > o.getD 0) ↔ (∃ l, o = some l ∧ 0 < l ∧ T > l) := by
  cases o with
  | none => simp [optNatTruthy]
  | some n =>
      simp only [optNatTruthy, Option.getD_some, ne_eq]
      constructor
      · rintro ⟨h1, h2⟩
        exact ⟨n, rfl, Nat.pos_of_ne_zero (by simpa using h1), h2⟩
      · rintro ⟨l, hl, hpos, hgt⟩
        cases hl
        exact ⟨by simpa using Nat.pos_iff_ne_zero.mp hpos, hgt⟩

/-- `token_limit_exceeded` appears in the reasons list exactly when the
token dimension offends. -/
lemma mem_budgetReasons_token (b : Budget) (T V P : Nat) :
    "token_limit_exceeded" ∈ budgetReasons b T V P ↔
      ((optNatTruthy b.token_limit = true) ∧ T > b.token_limit.getD 0) := by
  by_cases h1 : (optNatTruthy b.token_limit = true) ∧ T > b.token_limit.getD 0 <;>
    by_cases h2 : (optNatTruthy b.video_seconds_limit = true) ∧ V > b.video_seconds_limit.getD 0 <;>
      by_cases h3 : (optNatTruthy b.publication_limit = true) ∧ P > b.publication_limit.getD 0 <;>
        simp [budgetReasons, h1, h2, h3]

/-- `video_seconds_limit_exceeded` appears in the reasons list exactly when
the video dimension offends. -/
lemma mem_budgetReasons_video (b : Budget) (T V P : Nat) :
    "video_seconds_limit_exceeded" ∈ budgetReasons b T V P ↔
      ((optNatTruthy b.video_seconds_limit = true) ∧ V > b.video_seconds_limit.getD 0) := by
  by_cases h1 : (optNatTruthy b.token_limit = true) ∧ T > b.token_limit.getD 0 <;>
    by_cases h2 : (optNatTruthy b.video_seconds_limit = true) ∧ V > b.video_seconds_limit.getD 0 <;>
      by_cases h3 : (optNatTruthy b.publication_limit = true) ∧ P > b.publication_limit.getD 0 <;>
        simp [budgetReasons, h1, h2, h3]

/-- `publication_limit_exceeded` appears in the reasons list exactly when
the publication dimension offends. -/
lemma mem_budgetReasons_publication (b : Budget) (T V P : Nat) :
    "publication_limit_exceeded" ∈ budgetReasons b T V P ↔
      ((optNatTruthy b.publication_limit = true) ∧ P > b.publication_limit.getD 0) := by
  by_cases h1 : (optNatTruthy b.token_limit = true) ∧ T > b.token_limit.getD 0 <;>
    by_cases h2 : (optNatTruthy b.video_seconds_limit = true) ∧ V > b.video_seconds_limit.getD 0 <;>
      by_cases h3 : (optNatTruthy b.publication_limit = true) ∧ P > b.publication_limit.getD 0 <;>
        simp [budgetReasons, h1, h2, h3]

/-- The reasons list is empty exactly when no dimension offends. -/
lemma budgetReasons_eq_nil_iff (b : Budget) (T V P : Nat) :
    budgetReasons b T V P = [] ↔
      ¬((optNatTruthy b.token_limit = true) ∧ T > b.token_limit.getD 0) ∧
      ¬((optNatTruthy b.video_seconds_limit = true) ∧ V > b.video_seconds_limit.getD 0) ∧
      ¬((optNatTruthy b.publication_limit = true) ∧ P > b.publication_limit.getD 0) := by
  by_cases h1 : (optNatTruthy b.token_limit = true) ∧ T > b.token_limit.getD 0 <;>
    by_cases h2 : (optNatTruthy b.video_seconds_limit = true) ∧ V > b.video_seconds_limit.getD 0 <;>
      by_cases h3 : (optNatTruthy b.publication_limit = true) ∧ P > b.publication_limit.getD 0 <;>
        simp [budgetReasons, h1, h2, h3]

/-- A successful `get_active_budget` presupposes the project check. -/
lemma getActiveBudget_requireProject (st : Store) (pid : Nat) (b : Budget)
    (hb : getActiveBudget st pid = .ok b) : st.requireProject pid = .ok () := by
  unfold getActiveBudget Store.getLatestBudget at hb
  cases h : st.requireProject pid with
  | ok u => cases u; rfl
  | error e =>
      rw [h] at hb
      simp only [bind, Except.bind] at hb
      exact Except.noConfusion hb

/-- C1 counterexample: a `published` row with `platform_post_id` set is NOT
returned unchanged when the content item's latest QC report fails —
`publish_publication` overwrites it to `failed` with
`last_error = "qc_failed"` (the QC gate runs before the terminal-state
guards), so the row is not immutable "regardless of the QC result". -/
theorem published_row_mutated_on_qc_fail :
    Fixtures.qcFailedPublishedSys.store.getPublicationRow 3 = some Fixtures.publishedPub ∧
    Fixtures.publishedPub.status = "published" ∧
    Fixtures.publishedPub.platform_post_id = some "p1" ∧
    ({ Fixtures.publishedPub with status := "failed", last_error := some "qc_failed" } :
        Publication) ≠ Fixtures.publishedPub ∧
    (publishPublication defaultConfig okAdapter 200 Fixtures.qcFailedPublishedSys 1 3).2 =
      .ok { Fixtures.publishedPub with status := "failed", last_error := some "qc_failed" } ∧
    (publishPublication defaultConfig okAdapter 200
        Fixtures.qcFailedPublishedSys 1 3).1.store.getPublicationRow 3 =
      some { Fixtures.publishedPub with status := "failed", last_error := some "qc_failed" } := by
  exact ⟨rfl, rfl, rfl, by decide, rfl, rfl⟩

/-- C1 (amended): provided the content item's latest QC report passes, a
row that is `published` with a truthy `platform_post_id`, or `publishing`,
is returned unchanged by `publish_publication`: the whole state (store,
queue and trace — hence no platform-adapter call) is untouched. -/
theorem terminal_rows_unchanged_when_qc_passes
    (cfg : PublisherConfig) (adapter : Adapter) (now : Nat) (sys : SysState)
    (pid pubId : Nat) (pub : Publication)
    (hrow : sys.store.getPublicationRow pubId = some pub)
    (hproj : pub.project_id = pid)
    (hqc : qcPassed sys.store pid pub.content_item_id = true)
    (hterm : (pub.status = "published" ∧ optStrTruthy pub.platform_post_id = true) ∨
             pub.status = "publishing") :
    publishPublication cfg adapter now sys pid pubId = (sys, .ok pub) := by
  unfold publishPublication
  rw [hrow]
  dsimp only
  rw [if_pos hproj, if_neg (by simp [hproj, hqc])]
  rcases hterm with ⟨h1, h2⟩ | h1
  · rw [if_pos ⟨h1, h2⟩]
  · rw [if_neg ?_, if_pos h1]
    rintro ⟨hpub, -⟩
    rw [h1] at hpub
    exact absurd hpub (by decide)

/-- Witness for the amended C1: a concrete published row with a passing QC
report is returned unchanged. -/
theorem terminal_rows_unchanged_when_qc_passes_witness :
    publishPublication defaultConfig okAdapter 200 Fixtures.publishedOkSys 1 3 =
      (Fixtures.publishedOkSys, .ok Fixtures.publishedPub) :=
  terminal_rows_unchanged_when_qc_passes defaultConfig okAdapter 200
    Fixtures.publishedOkSys 1 3 Fixtures.publishedPub rfl rfl rfl
    (Or.inl ⟨rfl, rfl⟩)

/-- `create_alert` only ever appends to the alerts table. -/
lemma createAlert_store (st : Store) (pid : Nat) (ty sev msg : String)
    (md : List (String × String)) :
    ∃ aadd, (st.createAlert pid ty sev msg md).1 = { st with alerts := st.alerts ++ aadd } := by
  unfold Store.createAlert
  cases h : st.requireProject pid with
  | error e => exact ⟨[], by cases st; simp⟩
  | ok u => exact ⟨_, rfl⟩

/-- `ensure_budget` only ever appends to the alerts table: in particular it
never touches the usage ledger or the publications. -/
lemma ensureBudget_store (st : Store) (pid tu vu pu : Nat) (ud : Option Nat) (now : Nat) :
    ∃ aadd, (ensureBudget st pid tu vu pu ud now).1 =
      { st with alerts := st.alerts ++ aadd } := by
  unfold ensureBudget
  dsimp only
  split
  · exact ⟨[], by cases st; simp⟩
  · split
    · exact ⟨[], by cases st; simp⟩
    · split
      · exact createAlert_store st pid "budget_exceeded" "critical" _ _
      · exact ⟨[], by cases st; simp⟩

/-- `create_budget_usage`: on an exception the session is untouched; on
success the given row (and nothing else) is appended to the ledger. -/
lemma createBudgetUsage_store (st : Store) (pid : Nat) (u : BudgetUsage) :
    (∀ e, (st.createBudgetUsage pid u).2 = .error e → (st.createBudgetUsage pid u).1 = st) ∧
    (∀ v, (st.createBudgetUsage pid u).2 = .ok v → v = u ∧
      (st.createBudgetUsage pid u).1 = { st with budget_usages := st.budget_usages ++ [u] }) := by
  unfold Store.createBudgetUsage
  split
  · exact ⟨fun e _ => rfl, fun v hv => Except.noConfusion hv⟩
  · split
    · exact ⟨fun e _ => rfl, fun v hv => Except.noConfusion hv⟩
    · split
      · exact ⟨fun e he => Except.noConfusion he, fun v hv => ⟨(Except.ok.inj hv).symm, rfl⟩⟩
      · exact ⟨fun e _ => rfl, fun v hv => Except.noConfusion hv⟩

/-- Ledger effect of `record_usage`: shared helper behind the fail-closed
claim and the scheduling-order claim. -/
lemma recordUsage_ledger (st : Store) (pid tu vu pu : Nat)
    (ud : Option Nat) (now : Nat) :
    (∀ e, (recordUsage st pid tu vu pu ud now).2 = .error e →
      ((recordUsage st pid tu vu pu ud now).1).budget_usages = st.budget_usages) ∧
    (∀ u, (recordUsage st pid tu vu pu ud now).2 = .ok u →
      ((recordUsage st pid tu vu pu ud now).1).budget_usages = st.budget_usages ++ [u] ∧
      u.project_id = pid ∧ u.token_used = tu ∧ u.video_seconds_used = vu ∧
      u.publications_used = pu ∧ u.usage_date = ud.getD now) := by
  cases hA : getActiveBudget st pid with
  | error e => simp [recordUsage, hA]
  | ok budget =>
      simp only [recordUsage, hA]
      obtain ⟨aadd, ha⟩ := ensureBudget_store st pid tu vu pu (some (ud.getD now)) now
      rcases hE : ensureBudget st pid tu vu pu (some (ud.getD now)) now with ⟨st2, r2⟩
      rw [hE] at ha
      have ha2 : st2 = { st with alerts := st.alerts ++ aadd } := ha
      cases r2 with
      | error e2 =>
          constructor
          · intro e _
            show st2.budget_usages = st.budget_usages
            rw [ha2]
          · intro u hu
            exact Except.noConfusion hu
      | ok u2 =>
          obtain ⟨hcErr, hcOk⟩ := createBudgetUsage_store st2 pid
            { budget_id := budget.id, project_id := pid, usage_date := ud.getD now,
              token_used := tu, video_seconds_used := vu, publications_used := pu }
          constructor
          · intro e he
            have h3 := hcErr e he
            show ((st2.createBudgetUsage pid
              { budget_id := budget.id, project_id := pid, usage_date := ud.getD now,
                token_used := tu, video_seconds_used := vu,
                publications_used := pu }).1).budget_usages = st.budget_usages
            rw [h3, ha2]
          · intro u hu
            obtain ⟨hu1, hu2⟩ := hcOk u hu
            subst hu1
            refine ⟨?_, rfl, rfl, rfl, rfl, rfl⟩
            show ((st2.createBudgetUsage pid
              { budget_id := budget.id, project_id := pid, usage_date := ud.getD now,
                token_used := tu, video_seconds_used := vu,
                publications_used := pu }).1).budget_usages = st.budget_usages ++ [_]
            rw [hu2, ha2]

/-- C8: `record_usage` is fail-closed and atomic w.r.t. rejection: any
exception leaves the usage ledger exactly as it was, and a normal return
appends exactly one row carrying the requested dimensions and
`usage_date` (defaulting to now). -/
theorem record_usage_fail_closed (st : Store) (pid tu vu pu : Nat)
    (ud : Option Nat) (now : Nat) :
    (∀ e, (recordUsage st pid tu vu pu ud now).2 = .error e →
      ((recordUsage st pid tu vu pu ud now).1).budget_usages = st.budget_usages) ∧
    (∀ u, (recordUsage st pid tu vu pu ud now).2 = .ok u →
      ((recordUsage st pid tu vu pu ud now).1).budget_usages = st.budget_usages ++ [u] ∧
      u.project_id = pid ∧ u.token_used = tu ∧ u.video_seconds_used = vu ∧
      u.publications_used = pu ∧ u.usage_date = ud.getD now) :=
  recordUsage_ledger st pid tu vu pu ud now

/-- Witness for C8: recording one publication against a budget with free
room appends exactly that ledger row. -/
theorem record_usage_fail_closed_witness :
    (recordUsage Fixtures.baseStore 1 0 0 1 none 200).2 =
      .ok { budget_id := 5, project_id := 1, usage_date := 200, token_used := 0,
            video_seconds_used := 0, publications_used := 1 } ∧
    ((recordUsage Fixtures.baseStore 1 0 0 1 none 200).1).budget_usages =
      Fixtures.baseStore.budget_usages ++
        [{ budget_id := 5, project_id := 1, usage_date := 200, token_used := 0,
           video_seconds_used := 0, publications_used := 1 }] :=
  ⟨rfl, ((record_usage_fail_closed Fixtures.baseStore 1 0 0 1 none 200).2 _ rfl).1⟩

/-- `find?` over an id-keyed update map: if the lookup used to find a row
and the replacement carries the looked-up id, the lookup now finds the
replacement. -/
lemma find?_map_update (l : List Publication) (i : Nat) (pub p : Publication)
    (h : l.find? (fun x => x.id = i) = some pub) (hid : p.id = i) :
    (l.map (fun x => if x.id = p.id then p else x)).find? (fun x => x.id = i) = some p := by
  induction l with
  | nil => simp at h
  | cons a l ih =>
      by_cases ha : a.id = i
      · simp only [List.map_cons]
        rw [if_pos (by rw [ha, hid])]
        exact List.find?_cons_of_pos _ (by simp [hid])
      · rw [List.find?_cons_of_neg _ (by simp [ha])] at h
        simp only [List.map_cons]
        rw [if_neg (by rw [hid]; exact ha)]
        rw [List.find?_cons_of_neg _ (by simp [ha])]
        exact ih h

/-- Re-fetching a row after it was written back in place. -/
lemma getPublicationRow_put (st : Store) (i : Nat) (pub p : Publication)
    (h : st.getPublicationRow i = some pub) (hid : p.id = i) :
    (st.putPublicationRow p).getPublicationRow i = some p :=
  find?_map_update st.publications i pub p h hid

/-- `mark_published` never touches the usage ledger. -/
lemma markPublished_budget_usages (st : Store) (pid pubId : Nat) (post : String)
    (url : Option String) (pat : Option Nat) (now : Nat) :
    ((markPublished st pid pubId post url pat now).1).budget_usages = st.budget_usages := by
  unfold markPublished
  dsimp only
  split
  · rfl
  · split <;> rfl

/-- Pair form of `markPublished_budget_usages`, keyed on the match
equation. -/
lemma markPublished_pair (st st2 : Store) (pid pubId : Nat) (post : String)
    (url : Option String) (pat : Option Nat) (now : Nat) (r : Except PubError Publication)
    (h : markPublished st pid pubId post url pat now = (st2, r)) :
    st2.budget_usages = st.budget_usages := by
  have h2 := markPublished_budget_usages st pid pubId post url pat now
  rw [h] at h2
  exact h2

/-- `_handle_publish_error` never touches the usage ledger and adds no
budget event to the trace. -/
lemma handlePublishError_store (cfg : PublisherConfig) (sys : SysState)
    (pub : Publication) (msg : String) (now : Nat) :
    ((handlePublishError cfg sys pub msg now).1).store.budget_usages =
      sys.store.budget_usages ∧
    ((handlePublishError cfg sys pub msg now).1).trace.filter Event.isBudgetEvent =
      sys.trace.filter Event.isBudgetEvent := by
  unfold handlePublishError
  dsimp only
  split
  · obtain ⟨aadd, ha⟩ := createAlert_store sys.store pub.project_id
      "publication_failed" "high" msg
      [("publication_id", toString pub.id), ("platform", pub.platform),
       ("attempts", toString pub.attempt_count)]
    rcases hC : sys.store.createAlert pub.project_id "publication_failed" "high" msg
      [("publication_id", toString pub.id), ("platform", pub.platform),
       ("attempts", toString pub.attempt_count)] with ⟨st2, r2⟩
    rw [hC] at ha
    have ha2 : st2 = { sys.store with alerts := sys.store.alerts ++ aadd } := ha
    cases r2 with
    | error e => exact ⟨by rw [show st2.budget_usages = sys.store.budget_usages from by rw [ha2]], rfl⟩
    | ok a =>
        refine ⟨?_, rfl⟩
        show ((st2.putPublicationRow _).budget_usages) = sys.store.budget_usages
        rw [ha2]
        rfl
  · split
    · exact ⟨rfl, rfl⟩
    · exact ⟨rfl, by simp [List.filter_append, Event.isBudgetEvent]⟩

/-- C2 counterexample: with today's publication budget already exhausted,
`publish_publication` still calls the platform adapter and publishes —
there is no admission check and no `failed` transition on budget grounds. -/
theorem publish_ignores_exhausted_budget :
    (ensureBudget Fixtures.exhaustedStore 1 0 0 1 (some 200) 200).2 =
      .error (.budgetLimitExceeded "publication_limit_exceeded") ∧
    (publishPublication defaultConfig okAdapter 200 Fixtures.exhaustedSys 1 3).2 =
      .ok Fixtures.deliveredPub ∧
    (publishPublication defaultConfig okAdapter 200 Fixtures.exhaustedSys 1 3).1.trace =
      [Event.adapterCall 3] := by
  exact ⟨rfl, rfl, rfl⟩

/-- C2 (amended): `publish_publication` performs no budget-admission call
at all: whatever the adapter and state, the usage ledger is untouched and
no budget-guard event joins the trace (admission happens only at
`schedule` time, via `record_usage`). -/
theorem publish_performs_no_admission_check
    (cfg : PublisherConfig) (adapter : Adapter) (now : Nat) (sys : SysState)
    (pid pubId : Nat) :
    ((publishPublication cfg adapter now sys pid pubId).1).store.budget_usages =
      sys.store.budget_usages ∧
    ((publishPublication cfg adapter now sys pid pubId).1).trace.filter
        Event.isBudgetEvent =
      sys.trace.filter Event.isBudgetEvent := by
  unfold publishPublication
  dsimp only
  split
  · exact ⟨rfl, rfl⟩
  · split
    · split
      · exact ⟨rfl, rfl⟩
      · split
        · exact ⟨rfl, rfl⟩
        · split
          · exact ⟨rfl, rfl⟩
          · split
            · refine ⟨(handlePublishError_store _ _ _ _ _).1,
                ((handlePublishError_store _ _ _ _ _).2).trans ?_⟩
              simp [List.filter_append, Event.isBudgetEvent]
            · split
              · rename_i st r heq
                have hM := markPublished_pair _ _ _ _ _ _ _ _ _ heq
                exact ⟨hM, by simp [List.filter_append, Event.isBudgetEvent]⟩
              · rename_i st p heq
                have hM := markPublished_pair _ _ _ _ _ _ _ _ _ heq
                exact ⟨hM, by simp [List.filter_append, Event.isBudgetEvent]⟩
    · exact ⟨rfl, rfl⟩

/-- C3 counterexample: a successful delivery transitions the row to
`published` with `published_at` set and `last_error` cleared, but the usage
ledger stays empty and the trace carries no `record_usage` call — the
publication is NOT counted against the budget at delivery time. -/
theorem delivery_records_no_usage :
    (publishPublication defaultConfig okAdapter 200 Fixtures.baseSys 1 3).2 =
      .ok Fixtures.deliveredPub ∧
    Fixtures.deliveredPub.status = "published" ∧
    Fixtures.deliveredPub.published_at = some 200 ∧
    Fixtures.deliveredPub.last_error = none ∧
    (publishPublication defaultConfig okAdapter 200
        Fixtures.baseSys 1 3).1.store.budget_usages = [] ∧
    (publishPublication defaultConfig okAdapter 200 Fixtures.baseSys 1 3).1.trace =
      [Event.adapterCall 3] := by
  exact ⟨rfl, rfl, rfl, rfl, rfl, rfl⟩

/-- C3 (amended): a successful delivery attempt transitions the row to
`published` with `published_at := now`, the platform ids stored and
`last_error` cleared, and records no budget usage (accounting happened at
`schedule` time, not at delivery). -/
theorem success_publishes_without_usage
    (cfg : PublisherConfig) (adapter : Adapter) (now : Nat) (sys : SysState)
    (pid pubId : Nat) (pub : Publication) (res : AdapterResult)
    (hrow : sys.store.getPublicationRow pubId = some pub)
    (hproj : pub.project_id = pid)
    (hqc : qcPassed sys.store pid pub.content_item_id = true)
    (hg1 : ¬(pub.status = "published" ∧ optStrTruthy pub.platform_post_id = true))
    (hg2 : pub.status ≠ "publishing")
    (hadapter : adapter { pub with status := "publishing", attempt_count := pub.attempt_count + 1 } = .ok res) :
    (publishPublication cfg adapter now sys pid pubId).2 =
      .ok { pub with status := "published", attempt_count := pub.attempt_count + 1, platform_post_id := some res.platform_post_id, platform_post_url := res.platform_post_url, published_at := some now, last_error := none } ∧
    ((publishPublication cfg adapter now sys pid pubId).1).store.budget_usages =
      sys.store.budget_usages := by
  have hid : pub.id = pubId := by simpa using List.find?_some hrow
  have hput : (sys.store.putPublicationRow
      { pub with status := "publishing", attempt_count := pub.attempt_count + 1 }).getPublicationRow pubId =
      some { pub with status := "publishing", attempt_count := pub.attempt_count + 1 } :=
    getPublicationRow_put sys.store pubId pub _ hrow hid
  unfold publishPublication
  rw [hrow]
  dsimp only
  rw [if_pos hproj, if_neg (by simp [hqc]), if_neg hg1, if_neg hg2, hadapter]
  unfold markPublished
  dsimp only
  rw [hput]
  dsimp only
  rw [if_pos hproj]
  exact ⟨rfl, rfl⟩

/-- Witness for the amended C3 at the base fixture. -/
theorem success_publishes_without_usage_witness :
    (publishPublication defaultConfig okAdapter 200 Fixtures.baseSys 1 3).2 =
      .ok Fixtures.deliveredPub ∧
    ((publishPublication defaultConfig okAdapter 200
        Fixtures.baseSys 1 3).1).store.budget_usages =
      Fixtures.baseSys.store.budget_usages :=
  success_publishes_without_usage defaultConfig okAdapter 200 Fixtures.baseSys 1 3
    Fixtures.basePub { platform_post_id := "m1", platform_post_url := none }
    rfl rfl rfl (by decide) (by decide) rfl

/-- A retry task's idempotency key is never the empty string. -/
lemma retry_key_ne_empty (a b : Nat) :
    ("publication-retry-" ++ toString a ++ "-" ++ toString b) ≠ "" := by
  intro h
  have h1 := congrArg String.length h
  rw [String.length_append, String.length_append, String.length_append] at h1
  have h2 : ("publication-retry-" : String).length = 18 := rfl
  have h3 : ("" : String).length = 0 := rfl
  rw [h2, h3] at h1
  omega

/-- C5 counterexample: the second retry is enqueued at `now + 60`, not at
`now + min(60 * 2^(2-1), 900) = now + 120` — the delay is flat, not
exponential. -/
theorem retry_delay_is_flat :
    ((publishPublication defaultConfig (failingAdapter "boom") 1000
        Fixtures.retrySys 1 3).1).queue =
      some { tasks := [{ task_id := "publication-retry-3-2", task_name := "publish_content", payload := { publication_id := some 3, project_id := some 1 }, run_at := 1060, idempotency_key := some "publication-retry-3-2", attempts := 0 }], idempotency_index := ["publication-retry-3-2"], counter := 1 } ∧
    (1060 : Nat) ≠ 1000 + min (defaultConfig.retry_delay_seconds * 2 ^ (2 - 1)) 900 := by
  exact ⟨rfl, by decide⟩

/-- C5 (amended): a failed attempt below the ceiling re-arms the row as
`scheduled` and enqueues one retry task with FLAT delay
`retry_delay_seconds` (default 60s) under the idempotency key
`publication-retry-<id>-<attempt_count>`. -/
theorem retry_rearmed_with_flat_delay
    (cfg : PublisherConfig) (adapter : Adapter) (now : Nat) (sys : SysState)
    (pid pubId : Nat) (pub : Publication) (e : String) (q : InMemoryTaskQueue)
    (hrow : sys.store.getPublicationRow pubId = some pub)
    (hproj : pub.project_id = pid)
    (hqc : qcPassed sys.store pid pub.content_item_id = true)
    (hg1 : ¬(pub.status = "published" ∧ optStrTruthy pub.platform_post_id = true))
    (hg2 : pub.status ≠ "publishing")
    (hadapter : adapter { pub with status := "publishing", attempt_count := pub.attempt_count + 1 } = .error e)
    (hlt : pub.attempt_count + 1 < cfg.max_attempts)
    (hq : sys.queue = some q)
    (hkey : ¬ q.idempotency_index.contains
      ("publication-retry-" ++ toString pub.id ++ "-" ++ toString (pub.attempt_count + 1)) = true) :
    (publishPublication cfg adapter now sys pid pubId).2 =
      .ok { pub with status := "scheduled", attempt_count := pub.attempt_count + 1, last_error := some e } ∧
    ∃ entry : TaskEntry,
      ((publishPublication cfg adapter now sys pid pubId).1).queue =
        some { tasks := q.tasks ++ [entry], idempotency_index := q.idempotency_index ++ [entry.task_id], counter := q.counter + 1 } ∧
      entry.task_name = "publish_content" ∧
      entry.run_at = now + cfg.retry_delay_seconds ∧
      entry.task_id =
        "publication-retry-" ++ toString pub.id ++ "-" ++ toString (pub.attempt_count + 1) ∧
      entry.idempotency_key = some entry.task_id := by
  have hkne := retry_key_ne_empty pub.id (pub.attempt_count + 1)
  unfold publishPublication
  rw [hrow]
  dsimp only
  rw [if_pos hproj, if_neg (by simp [hqc]), if_neg hg1, if_neg hg2, hadapter]
  unfold handlePublishError
  dsimp only
  rw [if_neg (by omega), hq]
  dsimp only
  unfold InMemoryTaskQueue.enqueue
  dsimp only
  rw [if_neg (fun hand => hkey hand.2)]
  rw [if_pos (by simp [optStrTruthy, hkne]), if_pos (by simp [optStrTruthy, hkne])]
  refine ⟨rfl, ⟨⟨"publication-retry-" ++ toString pub.id ++ "-" ++ toString (pub.attempt_count + 1), "publish_content", ⟨some pub.id, some pub.project_id⟩, now + cfg.retry_delay_seconds, some ("publication-retry-" ++ toString pub.id ++ "-" ++ toString (pub.attempt_count + 1)), 0⟩, rfl, rfl, rfl, rfl, rfl⟩⟩

/-- Witness for the amended C5 at the retry fixture (second attempt). -/
theorem retry_rearmed_with_flat_delay_witness :
    (publishPublication defaultConfig (failingAdapter "boom") 1000
        Fixtures.retrySys 1 3).2 =
      .ok { Fixtures.retryPub with status := "scheduled", attempt_count := 2, last_error := some "boom" } ∧
    ∃ entry : TaskEntry,
      ((publishPublication defaultConfig (failingAdapter "boom") 1000
          Fixtures.retrySys 1 3).1).queue =
        some { tasks := [] ++ [entry], idempotency_index := [] ++ [entry.task_id], counter := 0 + 1 } ∧
      entry.task_name = "publish_content" ∧
      entry.run_at = 1000 + defaultConfig.retry_delay_seconds ∧
      entry.task_id = "publication-retry-" ++ toString (3 : Nat) ++ "-" ++ toString (1 + 1) ∧
      entry.idempotency_key = some entry.task_id :=
  retry_rearmed_with_flat_delay defaultConfig (failingAdapter "boom") 1000
    Fixtures.retrySys 1 3 Fixtures.retryPub "boom" ⟨[], [], 0⟩
    rfl rfl rfl (by decide) (by decide) rfl (by decide) rfl (by decide)

/-- `record_usage` only ever appends to the alerts table and the usage
ledger; every other table, and the id counter, is untouched. -/
lemma recordUsage_store_shape (st : Store) (pid tu vu pu : Nat)
    (ud : Option Nat) (now : Nat) :
    ∃ aadd uadd, (recordUsage st pid tu vu pu ud now).1 =
      { st with alerts := st.alerts ++ aadd, budget_usages := st.budget_usages ++ uadd } := by
  cases hA : getActiveBudget st pid with
  | error e =>
      refine ⟨[], [], ?_⟩
      simp only [recordUsage, hA]
      cases st
      simp
  | ok budget =>
      simp only [recordUsage, hA]
      obtain ⟨aadd, ha⟩ := ensureBudget_store st pid tu vu pu (some (ud.getD now)) now
      rcases hE : ensureBudget st pid tu vu pu (some (ud.getD now)) now with ⟨st2, r2⟩
      rw [hE] at ha
      have ha2 : st2 = { st with alerts := st.alerts ++ aadd } := ha
      cases r2 with
      | error e2 =>
          refine ⟨aadd, [], ?_⟩
          show st2 = _
          rw [ha2]
          cases st
          simp
      | ok u2 =>
          obtain ⟨hcErr, hcOk⟩ := createBudgetUsage_store st2 pid
            { budget_id := budget.id, project_id := pid, usage_date := ud.getD now,
              token_used := tu, video_seconds_used := vu, publications_used := pu }
          cases hC : (st2.createBudgetUsage pid
            { budget_id := budget.id, project_id := pid, usage_date := ud.getD now,
              token_used := tu, video_seconds_used := vu, publications_used := pu }).2 with
          | error e3 =>
              refine ⟨aadd, [], ?_⟩
              show (st2.createBudgetUsage pid
                { budget_id := budget.id, project_id := pid, usage_date := ud.getD now,
                  token_used := tu, video_seconds_used := vu,
                  publications_used := pu }).1 = _
              rw [hcErr e3 hC, ha2]
              cases st
              simp
          | ok u3 =>
              refine ⟨aadd,
                [{ budget_id := budget.id, project_id := pid, usage_date := ud.getD now,
                   token_used := tu, video_seconds_used := vu, publications_used := pu }], ?_⟩
              show (st2.createBudgetUsage pid
                { budget_id := budget.id, project_id := pid, usage_date := ud.getD now,
                  token_used := tu, video_seconds_used := vu,
                  publications_used := pu }).1 = _
              rw [(hcOk u3 hC).2, ha2]

/-- A successful `create_publication` appends exactly one fresh row with
the requested fields and bumps the id counter. -/
lemma createPublication_ok (st st3 : Store) (pid cid : Nat) (platform : String)
    (sat : Nat) (status key : String) (pubnew : Publication)
    (h : st.createPublication pid cid platform sat status key = (st3, .ok pubnew)) :
    st3 = { st with publications := st.publications ++ [pubnew],
                    next_publication_id := st.next_publication_id + 1 } ∧
    pubnew = { id := st.next_publication_id, project_id := pid, content_item_id := cid,
               platform := platform, scheduled_at := sat, status := status,
               platform_post_id := none, platform_post_url := none, published_at := none,
               idempotency_key := some key, attempt_count := 0, last_error := none } := by
  unfold Store.createPublication at h
  split at h
  · exact Prod.noConfusion h (fun _ hsnd => Except.noConfusion hsnd)
  · split at h
    · exact Prod.noConfusion h (fun _ hsnd => Except.noConfusion hsnd)
    · split at h
      · have h' := h.symm
        obtain ⟨h1, h2⟩ := Prod.mk.injEq .. ▸ h'
        have hp := Except.ok.inj h2
        subst hp
        exact ⟨h1, rfl⟩
      · exact Prod.noConfusion h (fun _ hsnd => Except.noConfusion hsnd)

/-- Decomposition of a key lookup that found nothing: the project exists
and no row of the project carries the key. -/
lemma getPubByKey_none (st : Store) (pid : Nat) (key : String)
    (h : st.getPublicationByIdempotencyKey pid key = .ok none) :
    st.projects.contains pid = true ∧
    st.publications.find?
      (fun p => p.project_id = pid ∧ p.idempotency_key = some key) = none := by
  unfold Store.getPublicationByIdempotencyKey Store.requireProject at h
  by_cases hc : st.projects.contains pid = true
  · rw [if_pos hc] at h
    simp only [bind, Except.bind, pure] at h
    exact ⟨hc, Except.ok.inj h⟩
  · rw [if_neg hc] at h
    simp only [bind, Except.bind] at h
    exact Except.noConfusion h

/-- Evaluating the key lookup when the project exists. -/
lemma getPubByKey_eval (st : Store) (pid : Nat) (key : String)
    (hc : st.projects.contains pid = true) :
    st.getPublicationByIdempotencyKey pid key =
      .ok (st.publications.find?
        (fun p => p.project_id = pid ∧ p.idempotency_key = some key)) := by
  unfold Store.getPublicationByIdempotencyKey Store.requireProject
  rw [if_pos hc]
  rfl

/-- `find?` skips a prefix in which it finds nothing. -/
lemma find?_append_none {α : Type} (p : α → Bool) (l1 l2 : List α)
    (h : l1.find? p = none) : (l1 ++ l2).find? p = l2.find? p := by
  induction l1 with
  | nil => rfl
  | cons a l ih =>
      by_cases ha : p a
      · rw [List.find?_cons_of_pos _ ha] at h
        exact Option.noConfusion h
      · rw [List.find?_cons_of_neg _ ha] at h
        simp only [List.cons_append]
        rw [List.find?_cons_of_neg _ ha]
        exact ih h

/-- C9: for a fresh idempotency key, `schedule` records the budget
consumption first: a `BudgetLimitExceeded` raised by `record_usage`
propagates with no publication row created and no task enqueued, and on
admission success the ledger row is appended and only then the publication
row created (and the dispatch task enqueued). -/
theorem schedule_records_budget_before_creation
    (now : Nat) (sys : SysState) (pid cid : Nat) (platform : String)
    (sat : Option Nat) (ikey : Option String)
    (hfresh : sys.store.getPublicationByIdempotencyKey pid
      (if optStrTruthy ikey then ikey.getD ""
       else makeIdempotencyKey pid cid platform (sat.getD now)) = .ok none) :
    (∀ st2 m, recordUsage sys.store pid 0 0 1 none now =
        (st2, .error (.budgetLimitExceeded m)) →
      schedule now sys pid cid platform sat ikey =
        ({ store := st2, queue := sys.queue,
           trace := sys.trace ++ [Event.recordUsageCall pid 1] },
         .error (.budgetLimitExceeded m)) ∧
      st2.publications = sys.store.publications) ∧
    (∀ st2 u st3 pubnew,
      recordUsage sys.store pid 0 0 1 none now = (st2, .ok u) →
      st2.createPublication pid cid platform (sat.getD now) "scheduled"
        (if optStrTruthy ikey then ikey.getD ""
         else makeIdempotencyKey pid cid platform (sat.getD now)) = (st3, .ok pubnew) →
      u.publications_used = 1 ∧
      st2.budget_usages = sys.store.budget_usages ++ [u] ∧
      st3.publications = st2.publications ++ [pubnew] ∧
      (schedule now sys pid cid platform sat ikey).1.store = st3 ∧
      (∃ tail, (schedule now sys pid cid platform sat ikey).1.trace =
        sys.trace ++ [Event.recordUsageCall pid 1, Event.publicationCreated pubnew.id]
          ++ tail) ∧
      (∃ tid, (schedule now sys pid cid platform sat ikey).2 =
        .ok { publication := pubnew, task_id := tid })) := by
  constructor
  · intro st2 m hrec
    have hpubs : st2.publications = sys.store.publications := by
      obtain ⟨aadd, uadd, hsh⟩ := recordUsage_store_shape sys.store pid 0 0 1 none now
      rw [hrec] at hsh
      rw [show st2 = _ from hsh]
    refine ⟨?_, hpubs⟩
    unfold schedule
    dsimp only
    rw [hfresh]
    dsimp only
    rw [hrec]
  · intro st2 u st3 pubnew hrec hcre
    obtain ⟨hst3, hpubnew⟩ := createPublication_ok st2 st3 pid cid platform
      (sat.getD now) "scheduled" _ _ hcre
    have hled := (recordUsage_ledger sys.store pid 0 0 1 none now).2 u (by rw [hrec])
    have hled2 : st2.budget_usages = sys.store.budget_usages ++ [u] := by
      have := hled.1
      rw [hrec] at this
      exact this
    refine ⟨hled.2.2.2.2.1, hled2, by rw [hst3], ?_, ?_, ?_⟩ <;>
      unfold schedule <;>
        dsimp only <;>
          rw [hfresh] <;>
            dsimp only <;>
              rw [hrec] <;>
                dsimp only <;>
                  rw [hcre] <;>
                    dsimp only <;>
                      cases hqq : sys.queue with
      | none => first
          | rfl
          | exact ⟨[], by simp⟩
          | exact ⟨none, rfl⟩
      | some q => first
          | rfl
          | exact ⟨[Event.taskEnqueued "publish_content"
              (some ("publication-" ++ toString pubnew.id)) (sat.getD now)], by simp⟩
          | exact ⟨some (q.enqueue "publish_content"
              { publication_id := some pubnew.id, project_id := some pid }
              (some (sat.getD now)) (some ("publication-" ++ toString pubnew.id)) now).1, rfl⟩

/-- Witness for C9 on the exhausted-budget fixture: the rejection
propagates out of `schedule` and no publication row is created, no task
enqueued. -/
theorem schedule_budget_rejection_witness :
    schedule 200 Fixtures.exhaustedSys 1 7 "telegram" (some 500) none =
      ({ store := (recordUsage Fixtures.exhaustedStore 1 0 0 1 none 200).1,
         queue := Fixtures.exhaustedSys.queue,
         trace := [Event.recordUsageCall 1 1] },
       .error (.budgetLimitExceeded "publication_limit_exceeded")) ∧
    ((recordUsage Fixtures.exhaustedStore 1 0 0 1 none 200).1).publications =
      Fixtures.exhaustedStore.publications :=
  (schedule_records_budget_before_creation 200 Fixtures.exhaustedSys 1 7 "telegram"
      (some 500) none rfl).1
    (recordUsage Fixtures.exhaustedStore 1 0 0 1 none 200).1
    "publication_limit_exceeded" rfl

/-- A `schedule` call whose key lookup finds an existing row returns that
row unchanged and leaves the whole state untouched. -/
lemma schedule_returns_existing (now : Nat) (sys1 : SysState) (pid cid : Nat)
    (platform : String) (sat : Option Nat) (ikey : Option String) (pubnew : Publication)
    (hlook : sys1.store.getPublicationByIdempotencyKey pid
      (if optStrTruthy ikey then ikey.getD ""
       else makeIdempotencyKey pid cid platform (sat.getD now)) = .ok (some pubnew)) :
    schedule now sys1 pid cid platform sat ikey =
      (sys1, .ok { publication := pubnew, task_id := none }) := by
  unfold schedule
  dsimp only
  rw [hlook]

/-- C4: scheduling twice with the same arguments (or the same explicit
idempotency key) creates exactly one row: the second call returns the first
call's publication with no task id and changes nothing — no new row, no
new usage record, no new task. -/
theorem schedule_idempotent
    (now : Nat) (sys sys1 : SysState) (pid cid : Nat) (platform : String)
    (sat : Option Nat) (ikey : Option String) (r1 : PublicationResult)
    (h1 : schedule now sys pid cid platform sat ikey = (sys1, .ok r1)) :
    schedule now sys1 pid cid platform sat ikey =
      (sys1, .ok { publication := r1.publication, task_id := none }) := by
  unfold schedule at h1
  dsimp only at h1
  split at h1
  · exact Except.noConfusion (congrArg Prod.snd h1)
  · rename_i existing heq
    have hsys := congrArg Prod.fst h1
    have hr := Except.ok.inj (congrArg Prod.snd h1)
    dsimp only at hsys hr
    subst hsys
    rw [← hr]
    exact schedule_returns_existing now sys pid cid platform sat ikey existing heq
  · rename_i heq
    obtain ⟨hc, hfind⟩ := getPubByKey_none sys.store pid _ heq
    split at h1
    · exact Except.noConfusion (congrArg Prod.snd h1)
    · rename_i st2 u heqR
      obtain ⟨aadd, uadd, hsh⟩ := recordUsage_store_shape sys.store pid 0 0 1 none now
      rw [heqR] at hsh
      have hst2 : st2 = { sys.store with alerts := sys.store.alerts ++ aadd, budget_usages := sys.store.budget_usages ++ uadd } := hsh
      split at h1
      · exact Except.noConfusion (congrArg Prod.snd h1)
      · rename_i st3 pubnew heqC
        obtain ⟨hst3, hpubnew⟩ := createPublication_ok st2 st3 pid cid platform
          (sat.getD now) "scheduled" _ _ heqC
        have hproj3 : st3.projects = sys.store.projects := by rw [hst3, hst2]
        have hpubs3 : st3.publications = sys.store.publications ++ [pubnew] := by
          rw [hst3, hst2]
        have hlook : st3.getPublicationByIdempotencyKey pid
            (if optStrTruthy ikey then ikey.getD ""
             else makeIdempotencyKey pid cid platform (sat.getD now)) =
            .ok (some pubnew) := by
          rw [getPubByKey_eval st3 pid _ (by rw [hproj3]; exact hc)]
          rw [hpubs3, find?_append_none _ _ _ hfind]
          rw [List.find?_cons_of_pos _ (by rw [hpubnew]; simp)]
        split at h1
        · have hsys := congrArg Prod.fst h1
          have hr := Except.ok.inj (congrArg Prod.snd h1)
          dsimp only at hsys hr
          subst hsys
          rw [← hr]
          exact schedule_returns_existing now _ pid cid platform sat ikey pubnew hlook
        · rename_i q heqQ
          have hsys := congrArg Prod.fst h1
          have hr := Except.ok.inj (congrArg Prod.snd h1)
          dsimp only at hsys hr
          subst hsys
          rw [← hr]
          exact schedule_returns_existing now _ pid cid platform sat ikey pubnew hlook

/-- Witness for C4: scheduling content item 7 twice for the same instant
creates the row once; the second call returns it with no task id and the
state is byte-for-byte the state after the first call. -/
theorem schedule_idempotent_witness :
    schedule 200 (schedule 200 Fixtures.baseSys 1 7 "telegram" (some 500) none).1
        1 7 "telegram" (some 500) none =
      ((schedule 200 Fixtures.baseSys 1 7 "telegram" (some 500) none).1,
       .ok { publication := Fixtures.scheduledPub, task_id := none }) :=
  schedule_idempotent 200 Fixtures.baseSys
    (schedule 200 Fixtures.baseSys 1 7 "telegram" (some 500) none).1
    1 7 "telegram" (some 500) none
    { publication := Fixtures.scheduledPub, task_id := some "publication-100" } rfl

/-- C6: with `max_attempts=3` and a platform adapter that fails on every
call, the three driven attempts leave the publication `failed` with
`attempt_count = 3` and `last_error` holding the failure detail, exactly one
`publication_failed` alert is emitted (with attempts and platform in its
metadata), and the third failure enqueues no further retry task. -/
theorem retry_ceiling_three_attempts (msg : String) :
    (publishPublication defaultConfig (failingAdapter msg) 400
        (publishPublication defaultConfig (failingAdapter msg) 300
          (publishPublication defaultConfig (failingAdapter msg) 200
            Fixtures.baseSys 1 3).1 1 3).1 1 3).1.store.getPublicationRow 3 =
      some { id := 3, project_id := 1, content_item_id := 7, platform := "telegram",
             scheduled_at := 100, status := "failed", platform_post_id := none,
             platform_post_url := none, published_at := none,
             idempotency_key := some "k1", attempt_count := 3,
             last_error := some msg } ∧
    (publishPublication defaultConfig (failingAdapter msg) 400
        (publishPublication defaultConfig (failingAdapter msg) 300
          (publishPublication defaultConfig (failingAdapter msg) 200
            Fixtures.baseSys 1 3).1 1 3).1 1 3).1.store.alerts =
      [{ project_id := 1, alert_type := "publication_failed", severity := "high",
         message := msg,
         metadata := [("publication_id", toString (3 : Nat)),
                      ("platform", "telegram"),
                      ("attempts", toString (3 : Nat))] }] ∧
    (publishPublication defaultConfig (failingAdapter msg) 400
        (publishPublication defaultConfig (failingAdapter msg) 300
          (publishPublication defaultConfig (failingAdapter msg) 200
            Fixtures.baseSys 1 3).1 1 3).1 1 3).1.queue =
      (publishPublication defaultConfig (failingAdapter msg) 300
        (publishPublication defaultConfig (failingAdapter msg) 200
          Fixtures.baseSys 1 3).1 1 3).1.queue := by
  exact ⟨rfl, rfl, rfl⟩

/-- C10: a key in `InMemoryTaskQueue`'s idempotency index keeps
deduplicating enqueues (the call returns the key and adds no task), the
index survives `pop_due`, enqueueing the key right after `pop_due` still
adds no task, and only `mark_done` releases the key. -/
theorem idempotency_key_survives_pop (q : InMemoryTaskQueue) (k : String)
    (name : String) (p : Payload) (ra : Option Nat) (now now' : Nat)
    (hk : k ≠ "") (hmem : k ∈ q.idempotency_index) :
    q.enqueue name p ra (some k) now = (k, q) ∧
    (q.popDue now').2.idempotency_index = q.idempotency_index ∧
    ((q.popDue now').2.enqueue name p ra (some k) now).1 = k ∧
    ((q.popDue now').2.enqueue name p ra (some k) now).2.tasks = (q.popDue now').2.tasks ∧
    k ∉ (q.markDone k).idempotency_index := by
  have hc : q.idempotency_index.contains k = true := by
    simpa using hmem
  refine ⟨?_, rfl, ?_, ?_, ?_⟩
  · simp [InMemoryTaskQueue.enqueue, optStrTruthy, hk, hc, hmem]
  · simp [InMemoryTaskQueue.enqueue, InMemoryTaskQueue.popDue, optStrTruthy, hk, hc, hmem]
  · simp [InMemoryTaskQueue.enqueue, InMemoryTaskQueue.popDue, optStrTruthy, hk, hc, hmem]
  · simp [InMemoryTaskQueue.markDone]

/-- Witness for C10 at a concrete queue holding key `a`. -/
theorem idempotency_key_survives_pop_witness :
    Fixtures.queueA.enqueue "publish_content"
        { publication_id := some 3, project_id := some 1 }
        none (some "a") 9 = ("a", Fixtures.queueA) ∧
    (Fixtures.queueA.popDue 7).2.idempotency_index = Fixtures.queueA.idempotency_index ∧
    ((Fixtures.queueA.popDue 7).2.enqueue "publish_content"
        { publication_id := some 3, project_id := some 1 } none (some "a") 9).1 = "a" ∧
    ((Fixtures.queueA.popDue 7).2.enqueue "publish_content"
        { publication_id := some 3, project_id := some 1 } none (some "a") 9).2.tasks =
      (Fixtures.queueA.popDue 7).2.tasks ∧
    "a" ∉ (Fixtures.queueA.markDone "a").idempotency_index :=
  idempotency_key_survives_pop Fixtures.queueA "a" "publish_content"
    { publication_id := some 3, project_id := some 1 } none 9 7
    (by decide) (by decide)

/-- C7: given an active budget, the daily admission check raises
`BudgetLimitExceeded` iff some dimension with a non-zero limit has its
window sum plus the new consumption strictly exceed the limit; the message
is the comma-joined offending reasons, each dimension's reason appears iff
that dimension offends with a positive limit (so a `0`/`null` limit never
rejects), a `budget_exceeded` alert is appended exactly on rejection, and
without an offence the check changes nothing and succeeds. -/
theorem ensure_admission_boundary
    (st : Store) (pid tu vu pu d now : Nat) (b : Budget) (t : BudgetUsageTotals)
    (hb : getActiveBudget st pid = .ok b)
    (ht : st.sumBudgetUsage pid (dailyWindowStart d) d = .ok t) :
    ((∃ m, (ensureBudget st pid tu vu pu (some d) now).2 =
        .error (.budgetLimitExceeded m)) ↔
      ((∃ l, b.token_limit = some l ∧ 0 < l ∧ t.token_used + tu > l) ∨
       (∃ l, b.video_seconds_limit = some l ∧ 0 < l ∧ t.video_seconds_used + vu > l) ∨
       (∃ l, b.publication_limit = some l ∧ 0 < l ∧ t.publications_used + pu > l))) ∧
    (∀ m, (ensureBudget st pid tu vu pu (some d) now).2 =
        .error (.budgetLimitExceeded m) →
      m = String.intercalate "," (budgetReasons b (t.token_used + tu)
            (t.video_seconds_used + vu) (t.publications_used + pu))) ∧
    ("token_limit_exceeded" ∈ budgetReasons b (t.token_used + tu)
        (t.video_seconds_used + vu) (t.publications_used + pu) ↔
      ∃ l, b.token_limit = some l ∧ 0 < l ∧ t.token_used + tu > l) ∧
    ("video_seconds_limit_exceeded" ∈ budgetReasons b (t.token_used + tu)
        (t.video_seconds_used + vu) (t.publications_used + pu) ↔
      ∃ l, b.video_seconds_limit = some l ∧ 0 < l ∧ t.video_seconds_used + vu > l) ∧
    ("publication_limit_exceeded" ∈ budgetReasons b (t.token_used + tu)
        (t.video_seconds_used + vu) (t.publications_used + pu) ↔
      ∃ l, b.publication_limit = some l ∧ 0 < l ∧ t.publications_used + pu > l) ∧
    ((∃ m, (ensureBudget st pid tu vu pu (some d) now).2 =
        .error (.budgetLimitExceeded m)) →
      ∃ a, (ensureBudget st pid tu vu pu (some d) now).1.alerts = st.alerts ++ [a] ∧
        a.alert_type = "budget_exceeded" ∧
        a.message = String.intercalate "," (budgetReasons b (t.token_used + tu)
          (t.video_seconds_used + vu) (t.publications_used + pu))) ∧
    (¬((∃ l, b.token_limit = some l ∧ 0 < l ∧ t.token_used + tu > l) ∨
       (∃ l, b.video_seconds_limit = some l ∧ 0 < l ∧ t.video_seconds_used + vu > l) ∨
       (∃ l, b.publication_limit = some l ∧ 0 < l ∧ t.publications_used + pu > l)) →
      ensureBudget st pid tu vu pu (some d) now = (st, .ok ())) := by
  have hproj : st.requireProject pid = .ok () := getActiveBudget_requireProject st pid b hb
  have halert : ∀ mdata msg', st.createAlert pid "budget_exceeded" "critical" msg' mdata =
      ({ st with alerts := st.alerts ++
          [{ project_id := pid, alert_type := "budget_exceeded", severity := "critical",
             message := msg', metadata := mdata }] },
       .ok { project_id := pid, alert_type := "budget_exceeded", severity := "critical",
             message := msg', metadata := mdata }) := by
    intro mdata msg'
    unfold Store.createAlert
    rw [hproj]
  have key : ensureBudget st pid tu vu pu (some d) now =
      (if budgetReasons b (t.token_used + tu) (t.video_seconds_used + vu)
          (t.publications_used + pu) ≠ [] then
        ({ st with alerts := st.alerts ++
            [{ project_id := pid, alert_type := "budget_exceeded", severity := "critical",
               message := String.intercalate "," (budgetReasons b (t.token_used + tu)
                 (t.video_seconds_used + vu) (t.publications_used + pu)),
               metadata := [("token_used", toString (t.token_used + tu)),
                 ("video_seconds_used", toString (t.video_seconds_used + vu)),
                 ("publications_used", toString (t.publications_used + pu)),
                 ("window", "daily")] }] },
         .error (.budgetLimitExceeded (String.intercalate "," (budgetReasons b
           (t.token_used + tu) (t.video_seconds_used + vu) (t.publications_used + pu)))))
      else (st, .ok ())) := by
    simp only [ensureBudget, hb, ht, Option.getD_some]
    split
    · rw [halert]
    · rfl
  have hmem1 : "token_limit_exceeded" ∈ budgetReasons b (t.token_used + tu)
      (t.video_seconds_used + vu) (t.publications_used + pu) ↔
      ∃ l, b.token_limit = some l ∧ 0 < l ∧ t.token_used + tu > l :=
    (mem_budgetReasons_token b _ _ _).trans (truthy_gt_iff _ _)
  have hmem2 : "video_seconds_limit_exceeded" ∈ budgetReasons b (t.token_used + tu)
      (t.video_seconds_used + vu) (t.publications_used + pu) ↔
      ∃ l, b.video_seconds_limit = some l ∧ 0 < l ∧ t.video_seconds_used + vu > l :=
    (mem_budgetReasons_video b _ _ _).trans (truthy_gt_iff _ _)
  have hmem3 : "publication_limit_exceeded" ∈ budgetReasons b (t.token_used + tu)
      (t.video_seconds_used + vu) (t.publications_used + pu) ↔
      ∃ l, b.publication_limit = some l ∧ 0 < l ∧ t.publications_used + pu > l :=
    (mem_budgetReasons_publication b _ _ _).trans (truthy_gt_iff _ _)
  have hnil : budgetReasons b (t.token_used + tu) (t.video_seconds_used + vu)
      (t.publications_used + pu) = [] ↔
      ¬((∃ l, b.token_limit = some l ∧ 0 < l ∧ t.token_used + tu > l) ∨
        (∃ l, b.video_seconds_limit = some l ∧ 0 < l ∧ t.video_seconds_used + vu > l) ∨
        (∃ l, b.publication_limit = some l ∧ 0 < l ∧ t.publications_used + pu > l)) := by
    rw [budgetReasons_eq_nil_iff]
    constructor
    · rintro ⟨h1, h2, h3⟩ (h | h | h)
      · exact h1 ((truthy_gt_iff _ _).mpr h)
      · exact h2 ((truthy_gt_iff _ _).mpr h)
      · exact h3 ((truthy_gt_iff _ _).mpr h)
    · intro h
      exact ⟨fun hc => h (Or.inl ((truthy_gt_iff _ _).mp hc)),
             fun hc => h (Or.inr (Or.inl ((truthy_gt_iff _ _).mp hc))),
             fun hc => h (Or.inr (Or.inr ((truthy_gt_iff _ _).mp hc)))⟩
  rw [key]
  by_cases hr : budgetReasons b (t.token_used + tu) (t.video_seconds_used + vu)
      (t.publications_used + pu) = []
  · rw [if_neg (by simp [hr])]
    refine ⟨?_, ?_, hmem1, hmem2, hmem3, ?_, ?_⟩
    · constructor
      · rintro ⟨m, hm⟩
        exact Except.noConfusion hm
      · intro h
        exact absurd h (hnil.mp hr)
    · intro m hm
      exact Except.noConfusion hm
    · rintro ⟨m, hm⟩
      exact Except.noConfusion hm
    · intro _
      rfl
  · rw [if_pos hr]
    refine ⟨?_, ?_, hmem1, hmem2, hmem3, ?_, ?_⟩
    · constructor
      · intro _
        by_contra hcon
        exact hr (hnil.mpr hcon)
      · intro _
        exact ⟨_, rfl⟩
    · intro m hm
      have h1 := Except.error.inj hm
      exact (PubError.budgetLimitExceeded.inj h1).symm
    · intro _
      exact ⟨_, rfl, rfl, rfl⟩
    · intro hcon
      exact absurd (hnil.mpr hcon) hr

/-- Witness for C7: a daily publication limit of 2, two prior usage rows in
the day's window, and a third admission of one publication raises. -/
theorem ensure_admission_boundary_witness :
    ∃ m, (ensureBudget Fixtures.exhaustedStore 1 0 0 1 (some 200) 200).2 =
      .error (.budgetLimitExceeded m) :=
  (ensure_admission_boundary Fixtures.exhaustedStore 1 0 0 1 200 200
      { id := 5, project_id := 1, token_limit := none, video_seconds_limit := none,
        publication_limit := some 2, created_at := 0 }
      { token_used := 0, video_seconds_used := 0, publications_used := 2 }
      rfl rfl).1.mpr
    (Or.inr (Or.inr ⟨2, rfl, by decide, by decide⟩))

end ContentZavod
